import Mathlib

/-!
Verification of the Lumi multi-agent elder-care assistant.

This file shallowly embeds the decision-relevant parts of the repository:

* the deterministic keyword classifier `analyze_safety`
  (src/server/agents/safety/server.py),
* the static context provider `get_emergency_context` (same file),
* the no-output fallback of `ADKManager.process_message` (same file),
* the orchestrator's `check_safety` JSON-parse fallback
  (src/server/agents/orchestrator/agent.py),
* the event-emission structure of `SafetyExecutor.execute` / `cancel` and
  `ConversationExecutor.execute` / `cancel`, and
* the conversation agent's `generate_llm_response`
  (src/server/agents/conversation/server.py).

External effects (json.loads, the ADK runner, the Ollama HTTP call, the event
queue) are modelled as explicit parameters: a fallible library call becomes an
`Option`/`Except` argument, and emitted protocol events become a returned list.
-/

/-! ## String containment (Python's `needle in hay`) -/

/-- `listPrefix n h` is `true` iff the character list `n` is a prefix of `h`. -/
def listPrefix : List Char → List Char → Bool
  | [], _ => true
  | _ :: _, [] => false
  | a :: as, b :: bs => a == b && listPrefix as bs

/-- `listContains n h` is `true` iff `n` occurs as a contiguous sublist of `h`.
This is Python's substring operator `n in h` on character lists. -/
def listContains (needle : List Char) : List Char → Bool
  | [] => needle.isEmpty
  | c :: t => listPrefix needle (c :: t) || listContains needle t

/-- Python's `needle in hay` on strings: contiguous substring containment,
with no word-boundary requirement. -/
def strContains (hay needle : String) : Bool :=
  listContains needle.toList hay.toList

/-- Python's `text.lower()`: per-character lowercasing, written over the
character-list model of `String` so that it evaluates by reduction. -/
def strLower (s : String) : String :=
  ⟨s.data.map Char.toLower⟩

/-! ## Safety Risk Engine: deterministic classifier `analyze_safety`
(src/server/agents/safety/server.py, lines 58-94) -/

/-- The dict returned by `analyze_safety`: keys `is_safe`, `reason`,
`response_suggestion`. -/
structure SafetyVerdict where
  is_safe : Bool
  reason : String
  response_suggestion : String
deriving DecidableEq, Repr

/-- The crisis lexicon of `analyze_safety`, in declaration order
(safety/server.py line 71). -/
def crisis_keywords : List String :=
  ["fall", "fell", "chest pain", "hurt myself", "suicide", "emergency",
   "blood", "help me"]

/-- The fixed `response_suggestion` set on a crisis hit
(safety/server.py line 81). -/
def crisis_suggestion : String :=
  "I am concerned about what you just said. I am notifying your emergency contact immediately. Please stay on the line."

/-- The `for word in crisis_keywords: if word in text_lower: ...; break` loop:
returns the first keyword, in lexicon declaration order, contained in
`text_lower`; `none` when no keyword matches. -/
def scan_crisis (text_lower : String) : List String → Option String
  | [] => none
  | w :: ws =>
    if strContains text_lower w then some w else scan_crisis text_lower ws

/-- `analyze_safety` (safety/server.py lines 58-94): lower-case the text, scan
the crisis lexicon; on the first hit return an unsafe verdict naming the
keyword, otherwise the stable verdict. -/
def analyze_safety (text : String) : SafetyVerdict :=
  let text_lower := strLower text
  match scan_crisis text_lower crisis_keywords with
  | some w =>
    { is_safe := false
      reason := "Detected crisis keyword: " ++ w
      response_suggestion := crisis_suggestion }
  | none =>
    { is_safe := true
      reason := "User appears stable."
      response_suggestion := "" }

/-- Modelled from the spec: the secondary emotional-distress lexicon
("sadness, loneliness, confusion terms") named by §4.4 and by the language
model instruction in `ADKManager._initialize_runner` ("MEDIUM: Sadness,
loneliness, confusion."). No such lexicon exists in code under src/: the
deterministic layer `analyze_safety` scans only `crisis_keywords`. -/
def distress_terms : List String := ["sad", "lonely", "confused"]

/-! ### Scan lemmas -/

theorem scan_crisis_eq_none (t : String) (ks : List String)
    (h : ∀ w ∈ ks, strContains t w = false) : scan_crisis t ks = none := by
  induction ks with
  | nil => rfl
  | cons a as ih =>
    have ha := h a (List.mem_cons_self a as)
    simp only [scan_crisis, ha, Bool.false_eq_true, if_false]
    exact ih fun w hw => h w (List.mem_cons_of_mem _ hw)

theorem scan_crisis_mem {t w : String} {ks : List String}
    (h : scan_crisis t ks = some w) : w ∈ ks ∧ strContains t w = true := by
  induction ks with
  | nil => simp [scan_crisis] at h
  | cons a as ih =>
    by_cases hc : strContains t a = true
    · simp only [scan_crisis, hc, if_true, Option.some.injEq] at h
      subst h
      exact ⟨List.mem_cons_self _ _, hc⟩
    · simp only [scan_crisis, hc, if_false] at h
      obtain ⟨hmem, hct⟩ := ih h
      exact ⟨List.mem_cons_of_mem _ hmem, hct⟩

theorem scan_crisis_isSome {t w : String} {ks : List String}
    (hmem : w ∈ ks) (hc : strContains t w = true) :
    ∃ w', scan_crisis t ks = some w' := by
  induction ks with
  | nil => cases hmem
  | cons a as ih =>
    by_cases ha : strContains t a = true
    · exact ⟨a, by simp [scan_crisis, ha]⟩
    · rcases List.mem_cons.mp hmem with rfl | hmem'
      · exact absurd hc ha
      · obtain ⟨w', hw'⟩ := ih hmem'
        exact ⟨w', by simp [scan_crisis, ha, hw']⟩

/-- The loop-with-break is the head of the lexicon filtered by containment:
the reported keyword is the first match in lexicon declaration order. -/
theorem scan_crisis_eq_filter_head (t : String) (ks : List String) :
    scan_crisis t ks = (ks.filter fun w => strContains t w).head? := by
  induction ks with
  | nil => rfl
  | cons a as ih =>
    by_cases ha : strContains t a = true
    · simp [scan_crisis, List.filter_cons, ha]
    · simp [scan_crisis, List.filter_cons, ha, ih]

/-! ## Emergency context (`get_emergency_context`, safety/server.py 41-55) -/

/-- One entry of `emergency_contacts`. -/
structure EmergencyContact where
  name : String
  phone : String
  relation : String
  preferred_method : String
deriving DecidableEq, Repr

/-- The dict returned by `get_emergency_context`. -/
structure EmergencyContext where
  user_name : String
  current_time : String
  location : String
  emergency_contacts : List EmergencyContact
  medical_notes : String
deriving DecidableEq, Repr

/-- `get_emergency_context` (safety/server.py lines 41-55). The wall clock
read `datetime.datetime.now().strftime("%H:%M")` is the explicit parameter
`now`; every other field is the fixed data of the source. `user_id` is
accepted and ignored, as in the source. -/
def get_emergency_context (now : String) (user_id : String) : EmergencyContext :=
  { user_name := "Grandpa Joe"
    current_time := now
    location := "Home - 123 Maple St"
    emergency_contacts :=
      [ { name := "Tommy", phone := "555-0199", relation := "Grandson",
          preferred_method := "call" },
        { name := "Dr. Smith", phone := "555-0900", relation := "Doctor",
          preferred_method := "message" } ]
    medical_notes := "History of heart arrhythmia." }

/-- Modelled from the spec: the contact-selection step of the
`execute_action` branch is not code under src/ — it exists only as language
model instruction text ("Method: 'call' or 'message' (based on contact
preference)"). Per spec §4.4 step 4, the first contact in the
EmergencyContext's declared contact order is selected. -/
def select_contact (ctx : EmergencyContext) : Option EmergencyContact :=
  ctx.emergency_contacts.head?

/-- Modelled from the spec: the selected contact's `preferred_method` is used
verbatim as the assessment's `method` (spec §4.4 step 4). -/
def selected_method (ctx : EmergencyContext) : Option String :=
  (select_contact ctx).map (fun c => c.preferred_method)

/-! ## ADKManager.process_message no-output fallback
(safety/server.py lines 156-203) -/

/-- The dict json-dumped at safety/server.py line 197 when the model run
produced no final response text. -/
def no_output_verdict : SafetyVerdict :=
  { is_safe := true, reason := "Agent provided no output",
    response_suggestion := "" }

/-- `json.dumps` of a `SafetyVerdict` dict, as the source produces it. -/
def dumpVerdict (v : SafetyVerdict) : String :=
  "\x7b\"is_safe\": " ++ (if v.is_safe then "true" else "false") ++
  ", \"reason\": \"" ++ v.reason ++ "\", \"response_suggestion\": \"" ++
  v.response_suggestion ++ "\"\x7d"

/-- The tail of `ADKManager.process_message` (safety/server.py lines
178-203). The ADK runner invocation is the explicit parameter `run`: `.ok t`
when the event stream yields final response text `t` (the empty string when
no final response carried text), `.error e` when the runner raises — the
source logs and re-raises, so the error propagates. When the collected text
is empty, the source substitutes the json-dumped `no_output_verdict`. -/
def process_message (run : Except String String) : Except String String :=
  match run with
  | .error e => .error e
  | .ok response_text =>
    if response_text = "" then .ok (dumpVerdict no_output_verdict)
    else .ok response_text

/-! ## Orchestrator `check_safety` (orchestrator/agent.py lines 52-65) -/

/-- The two fields of the fallback dict returned by `check_safety` on a JSON
parse error; a successfully parsed reply is projected to the same two fields,
which are the ones this path guarantees. -/
structure CheckSafetyResult where
  is_safe : Bool
  reason : String
deriving DecidableEq, Repr

/-- `check_safety` (orchestrator/agent.py lines 52-65), downstream of the
A2A call: `json.loads` of the safety agent's reply text is the explicit
parameter `parsed` (`some d` on success, `none` on `json.JSONDecodeError`).
On a parse failure the source returns
`{"is_safe": True, "reason": "Parse error, assuming safe"}`. -/
def check_safety (parsed : Option CheckSafetyResult) : CheckSafetyResult :=
  match parsed with
  | some d => d
  | none => { is_safe := true, reason := "Parse error, assuming safe" }

/-! ## Agent Executors: emitted protocol events
(safety/server.py 209-261, conversation/server.py 24-66) -/

/-- A protocol event enqueued by an executor: the freshly created Task in
state `submitted`, a `completed` task carrying the response text, or a
`failed` status update carrying an optional diagnostic message. -/
inductive TaskEvent where
  | submitted
  | completed (text : String)
  | failed (message : Option String)
deriving DecidableEq, Repr

/-- Terminal events are `completed` and `failed`. -/
def isTerminalEvent : TaskEvent → Bool
  | .submitted => false
  | .completed _ => true
  | .failed _ => true

def isCompletedEvent : TaskEvent → Bool
  | .completed _ => true
  | _ => false

def isFailedEvent : TaskEvent → Bool
  | .failed _ => true
  | _ => false

/-- `SafetyExecutor.execute` (safety/server.py lines 211-257), as the list of
events it enqueues. Effects are explicit parameters: `hasCurrentTask` is
whether `context.current_task` already exists (if not, a fresh `submitted`
task is enqueued first); `setup` models the steps before that enqueue
(reading the message, `new_task`) and `processing` models
`adk_manager.process_message`. Any exception is caught by the `except`
block, which enqueues a single `failed` status update with message
`"Safety Analysis Failed: " ++ e` and `final=True`. -/
def safety_execute (hasCurrentTask : Bool) (setup : Except String Unit)
    (processing : Except String String) : List TaskEvent :=
  match setup with
  | .error e => [.failed (some ("Safety Analysis Failed: " ++ e))]
  | .ok _ =>
    let pre := if hasCurrentTask then [] else [TaskEvent.submitted]
    match processing with
    | .ok response_text => pre ++ [.completed response_text]
    | .error e => pre ++ [.failed (some ("Safety Analysis Failed: " ++ e))]

/-- `ConversationExecutor.execute` (conversation/server.py lines 25-62):
same skeleton as `safety_execute`, except the `failed` status update carries
no message. -/
def conversation_execute (hasCurrentTask : Bool) (setup : Except String Unit)
    (processing : Except String String) : List TaskEvent :=
  match setup with
  | .error _ => [.failed none]
  | .ok _ =>
    let pre := if hasCurrentTask then [] else [TaskEvent.submitted]
    match processing with
    | .ok response_text => pre ++ [.completed response_text]
    | .error _ => pre ++ [.failed none]

/-- The error signalled by a `cancel` request. -/
inductive AgentError where
  | unsupportedOperation
deriving DecidableEq, Repr

/-- `SafetyExecutor.cancel` (safety/server.py lines 259-261): always raises
`ServerError(error=UnsupportedOperationError())`. -/
def safety_cancel : Except AgentError Unit :=
  .error .unsupportedOperation

/-- `ConversationExecutor.cancel` (conversation/server.py lines 64-66):
always raises `ServerError(error=UnsupportedOperationError())`. -/
def conversation_cancel : Except AgentError Unit :=
  .error .unsupportedOperation

/-! ## Conversation agent `generate_llm_response`
(conversation/server.py lines 68-103) -/

/-- The fields `generate_llm_response` reads from a successfully parsed
payload (`data.get("user_text", "")`, `data.get("memory_context", "")`). -/
structure ConversationPayload where
  user_text : String
  memory_context : String
deriving DecidableEq, Repr

/-- Outcome of the Ollama HTTP call inside `generate_llm_response`:
`ok r` when the POST and `resp.json()` succeed with `r = data.get("response")`;
`jsonError` when a raised `json.JSONDecodeError` reaches the handlers (caught
by the first `except` clause); `otherError` for any other exception (network,
HTTP status), caught by the second clause. -/
inductive OllamaOutcome where
  | ok (response_field : Option String)
  | jsonError
  | otherError
deriving DecidableEq, Repr

/-- `generate_llm_response` (conversation/server.py lines 68-103).
`json.loads(input_json)` is the explicit parameter `parsed` (`none` on
`json.JSONDecodeError`, which the first `except` clause turns into the
raw-text fallback string). The function is total: every exception is caught
and mapped to a response string. -/
def generate_llm_response (input_json : String)
    (parsed : Option ConversationPayload) (ollama : OllamaOutcome) : String :=
  match parsed with
  | none => "[Warm Tone] I hear you saying: " ++ input_json
  | some _ =>
    match ollama with
    | .ok r =>
      let t := (r.getD "").trim
      if t = "" then "[Warm Tone] I'm here with you." else t
    | .jsonError => "[Warm Tone] I hear you saying: " ++ input_json
    | .otherError => "[Warm Tone] I'm here with you. Tell me more, dear."

/-- `true` exactly on the `.error` constructor. -/
def exceptIsError {ε α : Type} : Except ε α → Bool
  | .error _ => true
  | .ok _ => false

/-- `true` exactly when a cancel result signals `UnsupportedOperation`. -/
def cancelSignalsError : Except AgentError Unit → Bool
  | .error .unsupportedOperation => true
  | _ => false

/-! ## Shared executor lemmas -/

theorem safety_execute_failure_events (hasTask : Bool)
    (setup : Except String Unit) (proc : Except String String)
    (h : exceptIsError setup = true ∨ exceptIsError proc = true) :
    ((safety_execute hasTask setup proc).filter isTerminalEvent).length = 1 ∧
    (∀ ev ∈ safety_execute hasTask setup proc, isCompletedEvent ev = false) ∧
    (∃ ev ∈ safety_execute hasTask setup proc, isFailedEvent ev = true) := by
  cases setup with
  | error e =>
    simp [safety_execute, isTerminalEvent, isCompletedEvent, isFailedEvent]
  | ok u =>
    cases proc with
    | ok t => rcases h with h | h <;> simp [exceptIsError] at h
    | error e =>
      cases hasTask <;>
        simp [safety_execute, isTerminalEvent, isCompletedEvent, isFailedEvent]

theorem conversation_execute_failure_events (hasTask : Bool)
    (setup : Except String Unit) (proc : Except String String)
    (h : exceptIsError setup = true ∨ exceptIsError proc = true) :
    ((conversation_execute hasTask setup proc).filter isTerminalEvent).length = 1 ∧
    (∀ ev ∈ conversation_execute hasTask setup proc, isCompletedEvent ev = false) ∧
    (∃ ev ∈ conversation_execute hasTask setup proc, isFailedEvent ev = true) := by
  cases setup with
  | error e =>
    simp [conversation_execute, isTerminalEvent, isCompletedEvent, isFailedEvent]
  | ok u =>
    cases proc with
    | ok t => rcases h with h | h <;> simp [exceptIsError] at h
    | error e =>
      cases hasTask <;>
        simp [conversation_execute, isTerminalEvent, isCompletedEvent,
          isFailedEvent]

/-! ## Claims -/

/-- C1: the claim says internal failures of the Safety path are never
downgraded to a safe verdict. The code does the opposite at both cited
places: `check_safety` returns `is_safe = True` with reason
"Parse error, assuming safe" when the safety agent's reply cannot be parsed
as JSON, and `ADKManager.process_message` substitutes a json-dumped
`is_safe = True` verdict ("Agent provided no output") when the model run
yields no final response text, which the executor then emits as a
`completed` task. This theorem evaluates the code at those failing
inputs. -/
theorem c1_internal_failure_yields_safe_verdict :
    check_safety none =
      { is_safe := true, reason := "Parse error, assuming safe" } ∧
    (check_safety none).is_safe = true ∧
    process_message (.ok "") = .ok (dumpVerdict no_output_verdict) ∧
    no_output_verdict.is_safe = true ∧
    (check_safety
        (some ⟨no_output_verdict.is_safe, no_output_verdict.reason⟩)).is_safe
      = true :=
  ⟨rfl, rfl, rfl, rfl, rfl⟩

/-- C2: every utterance whose lowercased text contains a crisis-lexicon
keyword is classified not-safe, with a reason naming a detected crisis
keyword (the deterministic layer keeps no pending-confirmation state, so the
claim's no-pending-confirmation proviso is vacuous here). -/
theorem c2_crisis_keyword_not_safe (text w : String)
    (hmem : w ∈ crisis_keywords)
    (hc : strContains (strLower text) w = true) :
    (analyze_safety text).is_safe = false ∧
    ∃ w', w' ∈ crisis_keywords ∧ strContains (strLower text) w' = true ∧
      (analyze_safety text).reason = "Detected crisis keyword: " ++ w' := by
  obtain ⟨w', hw'⟩ := scan_crisis_isSome hmem hc
  obtain ⟨hmem', hc'⟩ := scan_crisis_mem hw'
  refine ⟨by simp [analyze_safety, hw'], w', hmem', hc',
    by simp [analyze_safety, hw']⟩

/-- C2 witness: spec scenario 1, "I think I fell down and I am in a lot of
pain." contains the crisis keyword "fell". -/
theorem c2_crisis_keyword_not_safe_witness :
    ("fell" ∈ crisis_keywords ∧
      strContains (strLower "I think I fell down and I am in a lot of pain.")
        "fell" = true) ∧
    ((analyze_safety "I think I fell down and I am in a lot of pain.").is_safe
        = false ∧
      ∃ w', w' ∈ crisis_keywords ∧
        strContains (strLower "I think I fell down and I am in a lot of pain.")
          w' = true ∧
        (analyze_safety "I think I fell down and I am in a lot of pain.").reason
          = "Detected crisis keyword: " ++ w') :=
  ⟨⟨by decide, by decide⟩,
    c2_crisis_keyword_not_safe "I think I fell down and I am in a lot of pain."
      "fell" (by decide) (by decide)⟩

/-- C3: every utterance whose lowercased text contains no crisis keyword and
no distress term is classified safe with reason "User appears stable." and
empty response suggestion (the code's vocabulary for riskLevel LOW /
continue_calm). -/
theorem c3_no_keyword_stable (text : String)
    (hcrisis : ∀ w ∈ crisis_keywords, strContains (strLower text) w = false)
    (hdistress : ∀ w ∈ distress_terms, strContains (strLower text) w = false) :
    analyze_safety text =
      { is_safe := true, reason := "User appears stable.",
        response_suggestion := "" } := by
  have h := scan_crisis_eq_none (strLower text) crisis_keywords hcrisis
  simp [analyze_safety, h]

/-- C3 witness: spec scenario 2, "I am planning to visit my grandson
tomorrow." contains no crisis keyword and no distress term. -/
theorem c3_no_keyword_stable_witness :
    ((∀ w ∈ crisis_keywords,
        strContains (strLower "I am planning to visit my grandson tomorrow.")
          w = false) ∧
      (∀ w ∈ distress_terms,
        strContains (strLower "I am planning to visit my grandson tomorrow.")
          w = false)) ∧
    analyze_safety "I am planning to visit my grandson tomorrow." =
      { is_safe := true, reason := "User appears stable.",
        response_suggestion := "" } :=
  ⟨⟨by decide, by decide⟩,
    c3_no_keyword_stable "I am planning to visit my grandson tomorrow."
      (by decide) (by decide)⟩

/-- C4 counterexample: "I feel so sad and lonely today" contains the
distress terms "sad" and "lonely" and no crisis keyword, yet the
deterministic layer `analyze_safety` returns the same stable safe verdict it
returns for a neutral utterance — no MEDIUM / offer_support upgrade
occurs anywhere in the deterministic classification layer. -/
theorem c4_distress_not_upgraded_counterexample :
    analyze_safety "I feel so sad and lonely today" =
      { is_safe := true, reason := "User appears stable.",
        response_suggestion := "" } ∧
    analyze_safety "I feel so sad and lonely today" =
      analyze_safety "I am planning to visit my grandson tomorrow." ∧
    "sad" ∈ distress_terms ∧
    strContains (strLower "I feel so sad and lonely today") "sad" = true ∧
    (∀ w ∈ crisis_keywords,
      strContains (strLower "I feel so sad and lonely today") w = false) := by
  decide

/-- C4 amended: the MEDIUM / offer_support upgrade for emotional-distress
terms exists only in the language-model instruction text of
`ADKManager._initialize_runner`, not in the deterministic classification
layer: for every utterance with no crisis keyword, `analyze_safety` returns
the stable safe verdict even when a distress term is present. -/
theorem c4_distress_stays_stable (text : String)
    (hcrisis : ∀ w ∈ crisis_keywords, strContains (strLower text) w = false)
    (hdistress : ∃ w ∈ distress_terms, strContains (strLower text) w = true) :
    analyze_safety text =
      { is_safe := true, reason := "User appears stable.",
        response_suggestion := "" } := by
  have h := scan_crisis_eq_none (strLower text) crisis_keywords hcrisis
  simp [analyze_safety, h]

/-- C4 amended witness: the distress-only utterance
"I feel so sad and lonely today". -/
theorem c4_distress_stays_stable_witness :
    ((∀ w ∈ crisis_keywords,
        strContains (strLower "I feel so sad and lonely today") w = false) ∧
      (∃ w ∈ distress_terms,
        strContains (strLower "I feel so sad and lonely today") w = true)) ∧
    analyze_safety "I feel so sad and lonely today" =
      { is_safe := true, reason := "User appears stable.",
        response_suggestion := "" } :=
  ⟨⟨by decide, by decide⟩,
    c4_distress_stays_stable "I feel so sad and lonely today"
      (by decide) (by decide)⟩

/-- C5: for every inbound request whose processing fails (an exception in the
setup steps or in the agent-specific processing), both executors emit
exactly one terminal event, that event is a `failed` status update, and no
`completed` task is ever emitted for the failed request. -/
theorem c5_execute_fails_loud (hasTask : Bool) (setup : Except String Unit)
    (proc : Except String String)
    (h : exceptIsError setup = true ∨ exceptIsError proc = true) :
    (((safety_execute hasTask setup proc).filter isTerminalEvent).length = 1 ∧
      (∀ ev ∈ safety_execute hasTask setup proc, isCompletedEvent ev = false) ∧
      (∃ ev ∈ safety_execute hasTask setup proc, isFailedEvent ev = true)) ∧
    (((conversation_execute hasTask setup proc).filter
        isTerminalEvent).length = 1 ∧
      (∀ ev ∈ conversation_execute hasTask setup proc,
        isCompletedEvent ev = false) ∧
      (∃ ev ∈ conversation_execute hasTask setup proc,
        isFailedEvent ev = true)) :=
  ⟨safety_execute_failure_events hasTask setup proc h,
    conversation_execute_failure_events hasTask setup proc h⟩

/-- C5 witness: spec scenario 5 — the processing step (the Safety Engine's
context fetch inside the ADK run) raises, on a request with no pre-existing
task. -/
theorem c5_execute_fails_loud_witness :
    exceptIsError (Except.error "ContextUnavailable" : Except String String)
      = true ∧
    ((((safety_execute false (.ok ())
        (.error "ContextUnavailable")).filter isTerminalEvent).length = 1 ∧
      (∀ ev ∈ safety_execute false (.ok ()) (.error "ContextUnavailable"),
        isCompletedEvent ev = false) ∧
      (∃ ev ∈ safety_execute false (.ok ()) (.error "ContextUnavailable"),
        isFailedEvent ev = true)) ∧
    (((conversation_execute false (.ok ())
        (.error "ContextUnavailable")).filter isTerminalEvent).length = 1 ∧
      (∀ ev ∈ conversation_execute false (.ok ()) (.error "ContextUnavailable"),
        isCompletedEvent ev = false) ∧
      (∃ ev ∈ conversation_execute false (.ok ()) (.error "ContextUnavailable"),
        isFailedEvent ev = true))) :=
  ⟨rfl, c5_execute_fails_loud false (.ok ()) (.error "ContextUnavailable")
    (Or.inr rfl)⟩

/-- C6: the cancel operation of both executors always signals the
`UnsupportedOperation` error and never completes as a silent no-op
success. -/
theorem c6_cancel_always_unsupported :
    safety_cancel = Except.error AgentError.unsupportedOperation ∧
    conversation_cancel = Except.error AgentError.unsupportedOperation ∧
    cancelSignalsError safety_cancel = true ∧
    cancelSignalsError conversation_cancel = true ∧
    exceptIsError safety_cancel = true ∧
    exceptIsError conversation_cancel = true :=
  ⟨rfl, rfl, rfl, rfl, rfl, rfl⟩

/-- C7: for the fixed context returned by `get_emergency_context`, the
spec's tie-break (first contact in declared order) selects contact "Tommy"
and method "call", independently of the wall clock and the user id — the
same on every run. -/
theorem c7_first_contact_method_call (now uid now2 uid2 : String) :
    select_contact (get_emergency_context now uid) =
      some { name := "Tommy", phone := "555-0199", relation := "Grandson",
             preferred_method := "call" } ∧
    selected_method (get_emergency_context now uid) = some "call" ∧
    select_contact (get_emergency_context now uid) =
      select_contact (get_emergency_context now2 uid2) ∧
    selected_method (get_emergency_context now uid) =
      selected_method (get_emergency_context now2 uid2) :=
  ⟨rfl, rfl, rfl, rfl⟩

/-- C8: when two or more crisis keywords are contained in the lowercased
text, the reported match is the head of the lexicon filtered by containment
— the first keyword in lexicon declaration order, regardless of where the
keywords occur in the utterance text. -/
theorem c8_lexicon_order_wins (text : String)
    (h2 : 2 ≤ ((crisis_keywords.filter
      fun w => strContains (strLower text) w).length)) :
    ∃ w, (crisis_keywords.filter
        fun w => strContains (strLower text) w).head? = some w ∧
      (analyze_safety text).is_safe = false ∧
      (analyze_safety text).reason = "Detected crisis keyword: " ++ w := by
  rcases hl : crisis_keywords.filter (fun w => strContains (strLower text) w)
    with _ | ⟨a, t⟩
  · rw [hl] at h2
    simp at h2
  · have hscan : scan_crisis (strLower text) crisis_keywords = some a := by
      rw [scan_crisis_eq_filter_head, hl]
      rfl
    exact ⟨a, rfl, by simp [analyze_safety, hscan],
      by simp [analyze_safety, hscan]⟩

/-- C8 witness: "I have chest pain after a fall" contains "chest pain"
(earlier in the text) and "fall" (earlier in the lexicon); the reported
keyword is "fall", the lexicon-order winner. -/
theorem c8_lexicon_order_wins_witness :
    2 ≤ ((crisis_keywords.filter
      fun w => strContains (strLower "I have chest pain after a fall")
        w).length) ∧
    (∃ w, (crisis_keywords.filter
        fun w => strContains (strLower "I have chest pain after a fall")
          w).head? = some w ∧
      (analyze_safety "I have chest pain after a fall").is_safe = false ∧
      (analyze_safety "I have chest pain after a fall").reason =
        "Detected crisis keyword: " ++ w) ∧
    (analyze_safety "I have chest pain after a fall").reason =
      "Detected crisis keyword: fall" :=
  ⟨by decide, c8_lexicon_order_wins "I have chest pain after a fall"
    (by decide), by decide⟩

/-- C9: whenever the payload delivered to the conversation agent's response
generator is not valid JSON (`json.loads` fails), `generate_llm_response`
recovers locally: whatever the Ollama call would do, it returns the
raw-text fallback string that embeds the whole payload, and — being a total
function into `String` — never propagates the malformed-payload condition
as an error. -/
theorem c9_malformed_payload_recovered (input_json : String)
    (ollama : OllamaOutcome) :
    generate_llm_response input_json none ollama =
      "[Warm Tone] I hear you saying: " ++ input_json :=
  rfl

/-- C10: crisis-keyword detection is boundary-free substring containment:
any utterance whose lowercased text contains "fall" — also inside a longer
word such as "waterfall" — is classified not-safe with "fall" as the
detected reason ("fall" is the first keyword of the lexicon, so it is
always the reported match when present). -/
theorem c10_substring_no_word_boundary (text : String)
    (h : strContains (strLower text) "fall" = true) :
    analyze_safety text =
      { is_safe := false, reason := "Detected crisis keyword: fall",
        response_suggestion := crisis_suggestion } := by
  have hscan : scan_crisis (strLower text) crisis_keywords = some "fall" := by
    simp [crisis_keywords, scan_crisis, h]
  simp [analyze_safety, hscan]

/-- C10 witness: "What a beautiful waterfall" contains "fall" only inside
the word "waterfall", yet is flagged as a crisis. -/
theorem c10_substring_no_word_boundary_witness :
    strContains (strLower "What a beautiful waterfall") "fall" = true ∧
    analyze_safety "What a beautiful waterfall" =
      { is_safe := false, reason := "Detected crisis keyword: fall",
        response_suggestion := crisis_suggestion } :=
  ⟨by decide, c10_substring_no_word_boundary "What a beautiful waterfall"
    (by decide)⟩
